import Mathlib

/-!
RawTherapee, `rtengine/stdimagesource.cc`.

A shallow embedding of `StdImageSource` (loading of standard, non-raw image
files, input colour-space conversion, white balance helpers, preview size)
together with the properties its specification states about it.

Conventions of the embedding.

* C++ pointers are `Option` values; `nullptr` is `none`.
* C++ `int` is `Int`; where a result is stored back into an `int` it is
  wrapped to 32 bits (`wrap32`), division and remainder truncate (`Int.tdiv`,
  `Int.tmod`).
* C++ `double` is `Dbl`, the IEEE 754 binary64 format: a finite value is the
  rational it denotes, next to the two infinities and NaN. Multiplication and
  division round the exact result to the nearest binary64 value, ties to
  even, with gradual underflow and overflow to infinity (`Dbl.round`). The
  sign of zero is not modelled.
* Everything the translation unit calls but does not define (the rasters,
  the ICC store, LittleCMS, the metadata reader, the enumerator values of
  the headers) is a field of `Env`.
* Calls into collaborators that the specification talks about are recorded
  in an event list returned next to the result.
-/

namespace RawTherapee

/-! ## Numbers -/

/-- C++ `double` (IEEE 754 binary64): a finite value, given by the rational it
denotes, an infinity or NaN. -/
inductive Dbl where
  | fin (q : ℚ)
  | posInf
  | negInf
  | nan
  deriving DecidableEq

namespace Dbl

/-- Conversion `int -> double`; it is exact, an `int` has fewer significant
bits than the 53 of a `double`. -/
def ofInt (n : Int) : Dbl := fin n

/-- True for the values that are neither an infinity nor NaN. -/
def isFinite : Dbl → Bool
  | fin _ => true
  | _ => false

/-- The infinity with the sign of `pos`. -/
def inf (pos : Bool) : Dbl := if pos then posInf else negInf

/-- Rounding of a rational to the nearest integer, ties to the even one. -/
def roundHalfEven (x : ℚ) : ℤ :=
  if x - ⌊x⌋ < 1 / 2 then ⌊x⌋
  else if 1 / 2 < x - ⌊x⌋ then ⌊x⌋ + 1
  else if ⌊x⌋ % 2 = 0 then ⌊x⌋ else ⌊x⌋ + 1

/-- Exponent of the unit in the last place of binary64 at the magnitude
`m > 0`: 52 below the binary exponent of `m`, and never below that of the
subnormal range. -/
def ulpExp (m : ℚ) : ℤ := max (Int.log 2 m) (-1022) - 52

/-- The binary64 value of an exact result under the default rounding mode:
the nearest multiple of the unit in the last place, ties to even; a rounded
magnitude of `2 ^ 1024` or more overflows to the infinity of that sign. -/
def round (q : ℚ) : Dbl :=
  if q = 0 then fin 0
  else if (2 : ℚ) ^ (1024 : ℤ) ≤ (roundHalfEven (|q| / 2 ^ ulpExp |q|) : ℚ) * 2 ^ ulpExp |q| then
    inf (decide (0 < q))
  else if 0 < q then fin ((roundHalfEven (|q| / 2 ^ ulpExp |q|) : ℚ) * 2 ^ ulpExp |q|)
  else fin (-((roundHalfEven (|q| / 2 ^ ulpExp |q|) : ℚ) * 2 ^ ulpExp |q|))

/-- IEEE multiplication: the rounded exact product on finite values. -/
def mul : Dbl → Dbl → Dbl
  | nan, _ => nan
  | _, nan => nan
  | fin a, fin b => round (a * b)
  | fin a, posInf => if a = 0 then nan else inf (decide (0 < a))
  | fin a, negInf => if a = 0 then nan else inf (decide (a < 0))
  | posInf, fin b => if b = 0 then nan else inf (decide (0 < b))
  | negInf, fin b => if b = 0 then nan else inf (decide (b < 0))
  | posInf, posInf => posInf
  | posInf, negInf => negInf
  | negInf, posInf => negInf
  | negInf, negInf => posInf

/-- IEEE division: the rounded exact quotient on finite values with a nonzero
divisor; a zero divisor is `+0`, which is what the conversion of the `int`
zero yields. -/
def div : Dbl → Dbl → Dbl
  | nan, _ => nan
  | _, nan => nan
  | fin a, fin b =>
    if b = 0 then (if a = 0 then nan else inf (decide (0 < a))) else round (a / b)
  | fin _, posInf => fin 0
  | fin _, negInf => fin 0
  | posInf, fin b => inf (decide (0 ≤ b))
  | negInf, fin b => inf (decide (b < 0))
  | posInf, posInf => nan
  | posInf, negInf => nan
  | negInf, posInf => nan
  | negInf, negInf => nan

/-- C++ `a != b` on doubles: NaN differs from everything, itself included. -/
def cne (a b : Dbl) : Bool := decide (a ≠ b) || decide (a = nan)

end Dbl

/-- Largest value of a 32-bit `int`. -/
def INT_MAX : Int := 2147483647

/-- Wrap a mathematical integer to the 32-bit two's complement range. -/
def wrap32 (x : Int) : Int := (x + 2147483648) % 4294967296 - 2147483648

/-- Conversion `bool -> int`. -/
def boolToInt (b : Bool) : Int := if b then 1 else 0

/-! ## Preview size -/

/-- Modelled from the spec: the class `PreviewProps` is declared in a header
outside this file; it describes a requested crop and decimation by its
origin, width, height and skip factor. -/
structure PreviewProps where
  x : Int
  y : Int
  width : Int
  height : Int
  skip : Int

namespace PreviewProps

/-- Modelled from the spec: the getter of the width. -/
def getWidth (pp : PreviewProps) : Int := pp.width

/-- Modelled from the spec: the getter of the height. -/
def getHeight (pp : PreviewProps) : Int := pp.height

/-- Modelled from the spec: the getter of the skip factor. -/
def getSkip (pp : PreviewProps) : Int := pp.skip

end PreviewProps

/-- Member function `StdImageSource::getSize`: the pair `(w, h)` written to the out-parameters. -/
def getSize (pp : PreviewProps) : Int × Int :=
  (wrap32 (Int.tdiv pp.getWidth pp.getSkip
      + boolToInt (decide (Int.tmod pp.getWidth pp.getSkip > 0))),
   wrap32 (Int.tdiv pp.getHeight pp.getSkip
      + boolToInt (decide (Int.tmod pp.getHeight pp.getSkip > 0))))

/-! ## Data model -/

/-- Enumeration `IIOSampleFormat`. -/
inductive IIOSampleFormat where
  | IIOSF_UNKNOWN
  | IIOSF_UNSIGNED_CHAR
  | IIOSF_UNSIGNED_SHORT
  | IIOSF_LOGLUV24
  | IIOSF_LOGLUV32
  | IIOSF_FLOAT16
  | IIOSF_FLOAT24
  | IIOSF_FLOAT32
  deriving DecidableEq

/-- Enumeration `IIOSampleArrangement`. -/
inductive IIOSampleArrangement where
  | IIOSA_UNKNOWN
  | IIOSA_CHUNKY
  | IIOSA_PLANAR
  deriving DecidableEq

/-- The three raster classes, named by the value `getType()` reports. -/
inductive ImageKind where
  | sImage8
  | sImage16
  | sImagefloat
  deriving DecidableEq

/-- A LittleCMS profile handle; `none` is the null handle. -/
abbrev cmsHPROFILE := Option Nat

/-- A LittleCMS transform handle; `none` is the null handle. -/
abbrev cmsHTRANSFORM := Option Nat

/-- Colour space signature `cmsSigRgbData` of LittleCMS (the tag "RGB "). -/
def cmsSigRgbData : Nat := 0x52474220

/-- A raster object (`Image8`, `Image16` or `Imagefloat`): the members this
translation unit reads or sets, and its samples. -/
structure Raster where
  type : ImageKind
  sampleFormat : IIOSampleFormat
  sampleArrangement : IIOSampleArrangement
  pl : Option Nat
  embProfile : cmsHPROFILE
  width : Int
  height : Int
  data : List Dbl
  deriving DecidableEq

namespace Raster

/-- Modelled from the spec: the raster constructors live outside this file; a
freshly constructed raster of the given class (`new Image8` and so on) has
unknown format and arrangement, no listener, no profile and no samples. -/
def create (k : ImageKind) : Raster :=
  { type := k, sampleFormat := .IIOSF_UNKNOWN, sampleArrangement := .IIOSA_UNKNOWN,
    pl := none, embProfile := none, width := 0, height := 0, data := [] }

/-- Modelled from the spec: the setter that stamps the sample format. -/
def setSampleFormat (r : Raster) (f : IIOSampleFormat) : Raster :=
  { r with sampleFormat := f }

/-- Modelled from the spec: the setter that stamps the sample arrangement. -/
def setSampleArrangement (r : Raster) (a : IIOSampleArrangement) : Raster :=
  { r with sampleArrangement := a }

/-- Modelled from the spec: the setter that attaches the progress listener. -/
def setProgressListener (r : Raster) (l : Option Nat) : Raster :=
  { r with pl := l }

/-- Modelled from the spec: the getter of the embedded profile handle. -/
def getEmbeddedProfile (r : Raster) : cmsHPROFILE := r.embProfile

end Raster

/-- What `load` reads from a `FramesData` object. -/
structure FramesData where
  hasExif : Bool
  getOrientation : String
  deriving DecidableEq

/-- A `ColorTemp` value, kept as the constructor call that built it. -/
inductive ColorTemp where
  | unset
  | ofMultipliers (mulr mulg mulb e : Dbl)
  deriving DecidableEq

/-- A point of a spot white balance region. -/
structure Coord2D where
  x : Dbl
  y : Dbl
  deriving DecidableEq

/-- The six out-parameters of the raster routine `getSpotWBData`. -/
structure SpotWBData where
  reds : Dbl
  greens : Dbl
  blues : Dbl
  rn : Int
  gn : Int
  bn : Int
  deriving DecidableEq

/-- The fields of `procparams::ColorManagementParams` used here. -/
structure ColorManagementParams where
  workingProfile : String
  inputProfile : String
  deriving DecidableEq

/-- Members of the base class `ImageSource` used by this translation unit. -/
structure ImageSource where
  redAWBMul : Dbl
  greenAWBMul : Dbl
  blueAWBMul : Dbl
  embProfile : cmsHPROFILE
  idata : Option FramesData
  deriving DecidableEq

/-- The object state of `StdImageSource`. -/
structure StdImageSource extends ImageSource where
  fileName : String
  img : Option Raster
  plistener : Option Nat
  wb : ColorTemp
  full : Bool
  rgbSourceModified : Bool
  deriving DecidableEq

/-- Everything `stdimagesource.cc` uses but does not define. -/
structure Env where
  /-- Numeric value of each `IIOSampleFormat` enumerator. -/
  sfCode : IIOSampleFormat → Nat
  IMIO_SUCCESS : Int
  IMIO_FILETYPENOTSUPPORTED : Int
  hasJpegExtension : String → Bool
  hasPngExtension : String → Bool
  hasTiffExtension : String → Bool
  /-- Return code and the two out-parameters of the PNG probe. -/
  getPNGSampleFormat : String → Int × IIOSampleFormat × IIOSampleArrangement
  /-- Return code and the two out-parameters of the TIFF probe. -/
  getTIFFSampleFormat : String → Int × IIOSampleFormat × IIOSampleArrangement
  /-- The raster's decode `img->load (fname)`: error code and decoded raster. -/
  imgLoad : Raster → String → Int × Raster
  /-- Constructor `FramesData (fname)`. -/
  framesData : String → FramesData
  /-- The raster's `rotate (deg)`. -/
  rotate : Raster → Int → Raster
  /-- The raster's `allocate (W, H)`. -/
  allocate : Raster → Int → Int → Raster
  /-- The raster's `getAutoWBMultipliers`. -/
  imgGetAutoWBMultipliers : Raster → Dbl × Dbl × Dbl
  /-- The raster's `getSpotWBData`. -/
  getSpotWBData : Raster → List Coord2D → List Coord2D → List Coord2D → Int → SpotWBData
  /-- Member `ColorTemp::getMultipliers`. -/
  getMultipliers : ColorTemp → Dbl × Dbl × Dbl
  /-- Global `settings->verbose`. -/
  verbose : Bool
  /-- Store lookup `ICCStore::workingSpace`. -/
  workingSpace : String → cmsHPROFILE
  /-- Store lookup `ICCStore::getProfile`. -/
  getProfile : String → cmsHPROFILE
  /-- Store lookup `ICCStore::getsRGBProfile`. -/
  getsRGBProfile : cmsHPROFILE
  cmsGetColorSpace : cmsHPROFILE → Nat
  /-- LittleCMS `cmsCreateTransform (in, TYPE_RGB_FLT, out, TYPE_RGB_FLT,
  INTENT_RELATIVE_COLORIMETRIC, cmsFLAGS_NOOPTIMIZE | cmsFLAGS_NOCACHE)`. -/
  cmsCreateTransform : cmsHPROFILE → cmsHPROFILE → cmsHTRANSFORM
  normalizeFloatTo1 : Raster → Raster
  ExecCMSTransform : Raster → Nat → Raster
  normalizeFloatTo65535 : Raster → Raster

/-- Constructor `StdImageSource::StdImageSource ()`, after the base class
constructor has produced `base`. -/
def StdImageSource.ctor (base : ImageSource) : StdImageSource :=
  { redAWBMul := base.redAWBMul, greenAWBMul := base.greenAWBMul,
    blueAWBMul := base.blueAWBMul, embProfile := none, idata := none,
    fileName := "", img := none, plistener := none, wb := ColorTemp.unset,
    full := false, rgbSourceModified := false }

/-! ## Loading -/

/-- Member function `StdImageSource::getSampleFormat`: the two out-parameters. -/
def getSampleFormat (env : Env) (fname : String) : IIOSampleFormat × IIOSampleArrangement :=
  if env.hasJpegExtension fname then
    (.IIOSF_UNSIGNED_CHAR, .IIOSA_CHUNKY)
  else if env.hasPngExtension fname then
    let (result, sFormat, sArrangement) := env.getPNGSampleFormat fname
    if result = env.IMIO_SUCCESS then (sFormat, sArrangement) else (sFormat, sArrangement)
  else if env.hasTiffExtension fname then
    let (result, sFormat, sArrangement) := env.getTIFFSampleFormat fname
    if result = env.IMIO_SUCCESS then (sFormat, sArrangement) else (sFormat, sArrangement)
  else
    (.IIOSF_UNKNOWN, .IIOSA_UNKNOWN)

/-- Collaborator calls made by `load`, in program order. -/
inductive LoadEvent where
  | newImage (k : ImageKind)
  | setSampleFormat (f : IIOSampleFormat)
  | setSampleArrangement (a : IIOSampleArrangement)
  | setProgressStr (msg : String)
  | setProgress (p : Dbl)
  | setProgressListener
  /-- The decode `img->load (fname)`, with the raster as it is at the call. -/
  | imgLoad (r : Raster) (fname : String)
  | deleteImg
  | newFramesData (fname : String)
  | rotate (deg : Int)
  deriving DecidableEq

/-- The `switch (sFormat)` of `load`: the class allocated, or `none` for the
`default:` label. -/
def allocFor (sFormat : IIOSampleFormat) : Option ImageKind :=
  match sFormat with
  | .IIOSF_UNSIGNED_CHAR => some .sImage8
  | .IIOSF_UNSIGNED_SHORT => some .sImage16
  | .IIOSF_LOGLUV24 => some .sImagefloat
  | .IIOSF_LOGLUV32 => some .sImagefloat
  | .IIOSF_FLOAT16 => some .sImagefloat
  | .IIOSF_FLOAT24 => some .sImagefloat
  | .IIOSF_FLOAT32 => some .sImagefloat
  | _ => none

/-- The rotation `load` derives from the orientation tag. -/
def orientationDeg (orientation : String) : Int :=
  if orientation = "Rotate 90 CW" then 90
  else if orientation = "Rotate 180" then 180
  else if orientation = "Rotate 270 CW" then 270
  else 0

/-- The part of `load` between the `switch` and the decode: the raster of
class `k` is allocated, stamped with the detected sample format and
arrangement and, when a progress listener is attached, given the listener. -/
def stampRaster (s : StdImageSource) (k : ImageKind) (sFormat : IIOSampleFormat)
    (sArrangement : IIOSampleArrangement) : Raster × List LoadEvent :=
  let img := Raster.create k
  let img := img.setSampleFormat sFormat
  let img := img.setSampleArrangement sArrangement
  let ev := [LoadEvent.newImage k, .setSampleFormat sFormat, .setSampleArrangement sArrangement]
  if s.plistener.isSome then
    (img.setProgressListener s.plistener,
      ev ++ [LoadEvent.setProgressStr "PROGRESSBAR_LOADING", .setProgress (Dbl.fin 0),
        .setProgressListener])
  else (img, ev)

/-- The part of `load` after a successful decode: the embedded profile is
recorded, the metadata read, the raster rotated by the orientation tag, the
listener told, and the white balance set to `ColorTemp (1.0, 1.0, 1.0, 1.0)`. -/
def afterDecode (env : Env) (s : StdImageSource) (fname : String) (decoded : Raster) :
    StdImageSource × List LoadEvent :=
  let idata := env.framesData fname
  let (rotated, ev3) :=
    if idata.hasExif then
      let deg := orientationDeg idata.getOrientation
      if deg ≠ 0 then (env.rotate decoded deg, [LoadEvent.rotate deg]) else (decoded, [])
    else (decoded, [])
  let ev4 :=
    if s.plistener.isSome then
      [LoadEvent.setProgressStr "PROGRESSBAR_READY", .setProgress (Dbl.fin 1)]
    else []
  ({ s with
      img := some rotated
      embProfile := decoded.getEmbeddedProfile
      idata := some idata
      wb := ColorTemp.ofMultipliers (Dbl.fin 1) (Dbl.fin 1) (Dbl.fin 1) (Dbl.fin 1) },
    [LoadEvent.newFramesData fname] ++ ev3 ++ ev4)

/-- Member function `StdImageSource::load`: return code, object state afterwards, and the
collaborator calls made. -/
def load (env : Env) (s : StdImageSource) (fname : String) :
    Int × StdImageSource × List LoadEvent :=
  let s := { s with fileName := fname }
  let (sFormat, sArrangement) := getSampleFormat env fname
  match allocFor sFormat with
  | none => (env.IMIO_FILETYPENOTSUPPORTED, s, [])
  | some k =>
    let (img, ev) := stampRaster s k sFormat sArrangement
    let (error, decoded) := env.imgLoad img fname
    if error ≠ 0 then
      (error, { s with img := none }, ev ++ [.imgLoad img fname] ++ [.deleteImg])
    else
      let (s, ev2) := afterDecode env s fname decoded
      (0, s, ev ++ [.imgLoad img fname] ++ ev2)

/-- The decode calls recorded in a list of events. -/
def decodeCalls (evs : List LoadEvent) : List (Raster × String) :=
  evs.filterMap fun e =>
    match e with
    | .imgLoad r f => some (r, f)
    | _ => none

/-- The number of rasters allocated (`new Image8` and so on) in a list of
events. -/
def allocations (evs : List LoadEvent) : Nat :=
  (evs.filter fun e =>
    match e with
    | .newImage _ => true
    | _ => false).length

/-- The number of rasters released (`delete img`) in a list of events. -/
def releases (evs : List LoadEvent) : Nat :=
  evs.count LoadEvent.deleteImg

/-! ## Input colour-space conversion -/

/-- The test `sampleFormat & (IIOSF_LOGLUV24 | IIOSF_LOGLUV32 | IIOSF_FLOAT16 |
IIOSF_FLOAT24 | IIOSF_FLOAT32)` of `colorSpaceConversion`. -/
def floatFormatTest (env : Env) (sampleFormat : IIOSampleFormat) : Bool :=
  (env.sfCode sampleFormat &&&
    (env.sfCode .IIOSF_LOGLUV24 ||| env.sfCode .IIOSF_LOGLUV32 ||| env.sfCode .IIOSF_FLOAT16
      ||| env.sfCode .IIOSF_FLOAT24 ||| env.sfCode .IIOSF_FLOAT32)) != 0

/-- First half of `colorSpaceConversion` (up to the test `!skipTransform && in`):
the values of `skipTransform` and `in`. -/
def resolveSource (env : Env) (cmp : ColorManagementParams) (embedded : cmsHPROFILE)
    (sampleFormat : IIOSampleFormat) : Bool × cmsHPROFILE :=
  if cmp.inputProfile = "(embedded)" ∨ cmp.inputProfile = "" ∨ cmp.inputProfile = "(camera)"
      ∨ cmp.inputProfile = "(cameraICC)" then
    if embedded.isSome then
      (false, embedded)
    else if floatFormatTest env sampleFormat then
      (true, none)
    else
      (false, env.getsRGBProfile)
  else
    if cmp.inputProfile ≠ "(none)" then
      let inp := env.getProfile cmp.inputProfile
      if inp = none ∧ embedded.isSome then
        (false, embedded)
      else if inp = none then
        if floatFormatTest env sampleFormat then
          (true, none)
        else
          (false, env.getsRGBProfile)
      else
        (false, inp)
    else
      (false, none)

/-- What `colorSpaceConversion` does to its collaborators, in program order. -/
inductive CmsEvent where
  | printf (msg : String)
  | lock
  | unlock
  | cmsCreateTransform (src dst : cmsHPROFILE)
  | normalizeFloatTo1
  | ExecCMSTransform (t : Nat)
  | normalizeFloatTo65535
  | cmsDeleteTransform (t : Nat)
  deriving DecidableEq

/-- The message printed when a non-RGB embedded profile is replaced. -/
def notRgbMessage : String :=
  "embedded profile is not an RGB profile, using sRGB as input profile\n"

/-- The test `in == embedded && cmsGetColorSpace(in) != cmsSigRgbData`. -/
def embeddedNotRgb (env : Env) (inp embedded : cmsHPROFILE) : Bool :=
  decide (inp = embedded) && decide (env.cmsGetColorSpace inp ≠ cmsSigRgbData)

/-- The profile handed to `cmsCreateTransform` as source: `in` after the
colour-space check. -/
def checkedSource (env : Env) (inp embedded : cmsHPROFILE) : cmsHPROFILE :=
  if embeddedNotRgb env inp embedded then env.getsRGBProfile else inp

/-- Member function `StdImageSource::colorSpaceConversion`: the float image afterwards and the
calls made. -/
def colorSpaceConversion (env : Env) (im : Raster) (cmp : ColorManagementParams)
    (embedded : cmsHPROFILE) (sampleFormat : IIOSampleFormat) : Raster × List CmsEvent :=
  let out := env.workingSpace cmp.workingProfile
  let (skipTransform, inp) := resolveSource env cmp embedded sampleFormat
  if !skipTransform && inp.isSome then
    let ev0 := if embeddedNotRgb env inp embedded then [CmsEvent.printf notRgbMessage] else []
    let inp1 := checkedSource env inp embedded
    let hTransform := env.cmsCreateTransform inp1 out
    let ev1 := [CmsEvent.lock, .cmsCreateTransform inp1 out, .unlock]
    match hTransform with
    | some t =>
      let im := env.normalizeFloatTo1 im
      let im := env.ExecCMSTransform im t
      let im := env.normalizeFloatTo65535 im
      (im, ev0 ++ ev1 ++
        [.normalizeFloatTo1, .ExecCMSTransform t, .normalizeFloatTo65535, .cmsDeleteTransform t])
    | none =>
      (im, ev0 ++ ev1 ++
        [.printf ("Could not convert from "
          ++ (if inp1 = embedded then "embedded profile" else cmp.inputProfile)
          ++ " to " ++ cmp.workingProfile ++ "\n")])
  else
    (im, [])

/-- The `(source, destination)` pairs of the transform constructions in a log. -/
def createCalls (evs : List CmsEvent) : List (cmsHPROFILE × cmsHPROFILE) :=
  evs.filterMap fun e =>
    match e with
    | .cmsCreateTransform a b => some (a, b)
    | _ => none

/-- The operations on the float image in a log, in order. -/
def bufferOps (evs : List CmsEvent) : List CmsEvent :=
  evs.filter fun e =>
    match e with
    | .normalizeFloatTo1 => true
    | .ExecCMSTransform _ => true
    | .normalizeFloatTo65535 => true
    | _ => false

/-- How often the substitution diagnostic occurs in a log. -/
def substitutionDiagnostics (evs : List CmsEvent) : Nat :=
  evs.count (CmsEvent.printf notRgbMessage)

/-- The sample formats the specification calls the HDR/log float kinds. -/
def IIOSampleFormat.isFloatKind : IIOSampleFormat → Bool
  | .IIOSF_LOGLUV24 => true
  | .IIOSF_LOGLUV32 => true
  | .IIOSF_FLOAT16 => true
  | .IIOSF_FLOAT24 => true
  | .IIOSF_FLOAT32 => true
  | _ => false

/-- The enumerator values are flags: `IIOSF_UNKNOWN` is zero and every other
enumerator is a single bit of its own. -/
def FlagCodes (code : IIOSampleFormat → Nat) : Prop :=
  code .IIOSF_UNKNOWN = 0 ∧
    ∃ bit : IIOSampleFormat → Nat, Function.Injective bit ∧
      ∀ f, f ≠ .IIOSF_UNKNOWN → code f = 2 ^ bit f

/-- Bit position of each enumerator in the encoding `1 << 0` ... `1 << 6`. -/
def flagBit : IIOSampleFormat → Nat
  | .IIOSF_UNKNOWN => 7
  | .IIOSF_UNSIGNED_CHAR => 0
  | .IIOSF_UNSIGNED_SHORT => 1
  | .IIOSF_LOGLUV24 => 2
  | .IIOSF_LOGLUV32 => 3
  | .IIOSF_FLOAT16 => 4
  | .IIOSF_FLOAT24 => 5
  | .IIOSF_FLOAT32 => 6

/-- The encoding `IIOSF_UNKNOWN = 0`, `IIOSF_UNSIGNED_CHAR = 1 << 0`, ...,
`IIOSF_FLOAT32 = 1 << 6`. -/
def flagCode (f : IIOSampleFormat) : Nat :=
  if f = .IIOSF_UNKNOWN then 0 else 2 ^ flagBit f

/-! ## White balance -/

/-- Member function `StdImageSource::getAutoWBMultipliers`: the triple written to the
out-parameters, the state afterwards, and the rasters whose statistics
routine was invoked. The result is `none` when the null `img` is dereferenced. -/
def getAutoWBMultipliers (env : Env) (s : StdImageSource) :
    Option ((Dbl × Dbl × Dbl) × StdImageSource × List Raster) :=
  if Dbl.cne s.redAWBMul (Dbl.fin (-1)) then
    some ((s.redAWBMul, s.greenAWBMul, s.blueAWBMul), s, [])
  else
    match s.img with
    | none => none
    | some img =>
      let (rm, gm, bm) := env.imgGetAutoWBMultipliers img
      some ((rm, gm, bm), { s with redAWBMul := rm, greenAWBMul := gm, blueAWBMul := bm }, [img])

/-- Output of `getSpotWB`. -/
inductive SpotEvent where
  /-- The verbose `printf ("AVG: %g %g %g\n", ...)` with its three arguments. -/
  | printfAVG (r g b : Dbl)
  deriving DecidableEq

/-- Member function `StdImageSource::getSpotWB`: the returned `ColorTemp`, the state afterwards
and what was printed. The result is `none` when the null `img` is dereferenced. -/
def getSpotWB (env : Env) (s : StdImageSource) (red green blue : List Coord2D) (tran : Int)
    (equal : Dbl) : Option (ColorTemp × StdImageSource × List SpotEvent) :=
  match s.img with
  | none => none
  | some img =>
    let d := env.getSpotWBData img red green blue tran
    let (img_r, img_g, img_b) := env.getMultipliers s.wb
    let ev :=
      if env.verbose then
        [SpotEvent.printfAVG (Dbl.div d.reds (Dbl.ofInt d.rn)) (Dbl.div d.greens (Dbl.ofInt d.gn))
          (Dbl.div d.blues (Dbl.ofInt d.bn))]
      else []
    some (ColorTemp.ofMultipliers
        (Dbl.mul (Dbl.div d.reds (Dbl.ofInt d.rn)) img_r)
        (Dbl.mul (Dbl.div d.greens (Dbl.ofInt d.gn)) img_g)
        (Dbl.mul (Dbl.div d.blues (Dbl.ofInt d.bn)) img_b)
        equal,
      s, ev)

/-- Member function `StdImageSource::flushRGB`: the raster is reallocated to the empty size.
The result is `none` when the null `img` is dereferenced. -/
def flushRGB (env : Env) (s : StdImageSource) : Option StdImageSource :=
  match s.img with
  | none => none
  | some img => some { s with img := some (env.allocate img 0 0) }

/-! ## Reference definitions and sample data -/

/-- The fallback of the specification's profile resolver when neither a named
nor an embedded profile is available: skip for the HDR/log float kinds, the
default sRGB profile otherwise. The pair is `(skip, profile)`. -/
def fallbackSource (env : Env) (sampleFormat : IIOSampleFormat) : Bool × cmsHPROFILE :=
  if sampleFormat.isFloatKind then (true, none) else (false, env.getsRGBProfile)

/-- The preference strings that ask for the embedded profile. -/
def embeddedPreferences : List String := ["(embedded)", "", "(camera)", "(cameraICC)"]

/-- A small concrete environment: the flag encoding of the sample formats,
a store that knows the profile "Adobe" (handle 20), sRGB with handle 10, the
working space with handle 30, colour space RGB for every handle but 7, and
transform construction that fails only for source handle 99. -/
def sampleEnv : Env :=
  { sfCode := flagCode
    IMIO_SUCCESS := 0
    IMIO_FILETYPENOTSUPPORTED := 6
    hasJpegExtension := fun f => f = "a.jpg" || f = "broken.jpg"
    hasPngExtension := fun f => f = "a.png"
    hasTiffExtension := fun f => f = "a.tif" || f = "neg.tif"
    getPNGSampleFormat := fun _ => (0, .IIOSF_UNSIGNED_SHORT, .IIOSA_CHUNKY)
    getTIFFSampleFormat := fun _ => (0, .IIOSF_FLOAT32, .IIOSA_CHUNKY)
    imgLoad := fun r f =>
      if f = "broken.jpg" then (4, r)
      else if f = "neg.tif" then
        (0, { r with width := 1, height := 1, data := [Dbl.fin (-1), Dbl.fin 2, Dbl.fin 3] })
      else (0, { r with width := 1, height := 1, data := [Dbl.fin 1, Dbl.fin 2, Dbl.fin 3] })
    framesData := fun _ => { hasExif := false, getOrientation := "" }
    rotate := fun r _ => r
    allocate := fun r w h => { r with width := w, height := h, data := [] }
    imgGetAutoWBMultipliers := fun r =>
      match r.data with
      | [a, b, c] => (a, b, c)
      | _ => (Dbl.nan, Dbl.nan, Dbl.nan)
    getSpotWBData := fun _ red green blue _ =>
      { reds := Dbl.fin 200, greens := Dbl.fin 300, blues := Dbl.fin 400,
        rn := red.length, gn := green.length, bn := blue.length }
    getMultipliers := fun _ => (Dbl.fin 1, Dbl.fin 1, Dbl.fin 1)
    verbose := false
    workingSpace := fun _ => some 30
    getProfile := fun n => if n = "Adobe" then some 20 else if n = "Bad" then some 99 else none
    getsRGBProfile := some 10
    cmsGetColorSpace := fun h => if h = some 7 then 0x434D594B else cmsSigRgbData
    cmsCreateTransform := fun a _ => if a = some 99 then none else some 1
    normalizeFloatTo1 := fun r => { r with data := r.data.map fun d => Dbl.div d (Dbl.fin 65535) }
    ExecCMSTransform := fun r _ => r
    normalizeFloatTo65535 := fun r =>
      { r with data := r.data.map fun d => Dbl.mul d (Dbl.fin 65535) } }

/-- A float image with one pixel. -/
def sampleImage : Raster :=
  { Raster.create .sImagefloat with
    width := 1, height := 1, data := [Dbl.fin 65535, Dbl.fin 0, Dbl.fin 13107] }

/-- The raster representation the specification documents for a detected
sample format: unsigned-8 gives the 8-bit raster, unsigned-16 the 16-bit
raster, every float/log kind the float raster, anything else none. -/
def documentedRaster (f : IIOSampleFormat) : Option ImageKind :=
  if f = .IIOSF_UNSIGNED_CHAR then some .sImage8
  else if f = .IIOSF_UNSIGNED_SHORT then some .sImage16
  else if f.isFloatKind then some .sImagefloat
  else none

/-- A base-class state whose auto white balance cache holds -1, the value
`getAutoWBMultipliers` tests for to decide that nothing is cached yet. -/
def freshBase : ImageSource :=
  { redAWBMul := Dbl.fin (-1), greenAWBMul := Dbl.fin (-1), blueAWBMul := Dbl.fin (-1),
    embProfile := none, idata := none }

/-- An image source holding the one-pixel sample image, auto white balance
not yet computed. -/
def sampleSource : StdImageSource :=
  { StdImageSource.ctor freshBase with
    img := some sampleImage
    wb := ColorTemp.ofMultipliers (Dbl.fin 1) (Dbl.fin 1) (Dbl.fin 1) (Dbl.fin 1) }

/-- The image source after loading the float TIFF "neg.tif", whose single
pixel has the red sample -1. -/
def negSource : StdImageSource := (load sampleEnv (StdImageSource.ctor freshBase) "neg.tif").2.1

/-- A region list with two points. -/
def twoPoints : List Coord2D := [⟨Dbl.fin 0, Dbl.fin 0⟩, ⟨Dbl.fin 1, Dbl.fin 0⟩]

/-- A region list with three points. -/
def threePoints : List Coord2D := ⟨Dbl.fin 2, Dbl.fin 0⟩ :: twoPoints

/-- A region list with four points. -/
def fourPoints : List Coord2D := ⟨Dbl.fin 3, Dbl.fin 0⟩ :: threePoints

/-! ## Theorems -/

theorem wrap32_of_range (x : Int) (h0 : 0 ≤ x) (h1 : x ≤ INT_MAX) : wrap32 x = x := by
  unfold wrap32
  unfold INT_MAX at h1
  omega

/-- For positive operands the C++ expression `a / s + (a % s > 0)` is the
ceiling of the exact quotient. -/
theorem tdiv_add_rem_eq_ceil (a s : Int) (ha : 0 < a) (hs : 0 < s) :
    Int.tdiv a s + boolToInt (decide (Int.tmod a s > 0)) = ⌈(a : ℚ) / (s : ℚ)⌉
      ∧ Int.tdiv a s = a / s ∧ Int.tmod a s = a % s := by
  have hd : Int.tdiv a s = a / s := Int.tdiv_eq_ediv (le_of_lt ha) (le_of_lt hs)
  have hm : Int.tmod a s = a % s := Int.tmod_eq_emod (le_of_lt ha) (le_of_lt hs)
  refine ⟨?_, hd, hm⟩
  rw [hd, hm]
  have hsq : (0 : ℚ) < (s : ℚ) := by exact_mod_cast hs
  have hdiv : s * (a / s) + a % s = a := Int.ediv_add_emod a s
  have hr0 : 0 ≤ a % s := Int.emod_nonneg a (ne_of_gt hs)
  have hr1 : a % s < s := Int.emod_lt_of_pos a hs
  symm
  rw [Int.ceil_eq_iff]
  by_cases hz : a % s > 0
  · have hb : boolToInt (decide (a % s > 0)) = 1 := by simp [boolToInt, hz]
    rw [hb]
    constructor
    · rw [lt_div_iff₀ hsq]
      have : (a / s + 1 - 1) * s < a := by nlinarith
      exact_mod_cast this
    · rw [div_le_iff₀ hsq]
      have : a ≤ (a / s + 1) * s := by nlinarith
      exact_mod_cast this
  · have hb : boolToInt (decide (a % s > 0)) = 0 := by simp [boolToInt, hz]
    have hr : a % s = 0 := by omega
    rw [hb]
    constructor
    · rw [lt_div_iff₀ hsq]
      have : (a / s + 0 - 1) * s < a := by nlinarith
      exact_mod_cast this
    · rw [div_le_iff₀ hsq]
      have : a ≤ (a / s + 0) * s := by nlinarith
      exact_mod_cast this

/-- C10: for a positive width, height and skip factor (each a 32-bit `int`),
`getSize` returns `ceil (width / skip)` and `ceil (height / skip)`, computed in
integer arithmetic as `width / skip + (1 if width mod skip > 0 else 0)` and
likewise for the height. -/
theorem getSize_eq_ceil (pp : PreviewProps) (hw : 0 < pp.width) (hh : 0 < pp.height)
    (hs : 0 < pp.skip) (hwmax : pp.width ≤ INT_MAX) (hhmax : pp.height ≤ INT_MAX) :
    getSize pp = (⌈(pp.width : ℚ) / (pp.skip : ℚ)⌉, ⌈(pp.height : ℚ) / (pp.skip : ℚ)⌉)
      ∧ getSize pp =
        (pp.width / pp.skip + (if pp.width % pp.skip > 0 then 1 else 0),
         pp.height / pp.skip + (if pp.height % pp.skip > 0 then 1 else 0)) := by
  obtain ⟨cw, dw, mw⟩ := tdiv_add_rem_eq_ceil pp.width pp.skip hw hs
  obtain ⟨ch, dh, mh⟩ := tdiv_add_rem_eq_ceil pp.height pp.skip hh hs
  have bw : ∀ a : Int, 0 < a → a ≤ INT_MAX →
      0 ≤ a / pp.skip + boolToInt (decide (a % pp.skip > 0))
        ∧ a / pp.skip + boolToInt (decide (a % pp.skip > 0)) ≤ INT_MAX := by
    intro a ha hmax
    have hdiv : pp.skip * (a / pp.skip) + a % pp.skip = a := Int.ediv_add_emod a pp.skip
    have hr0 : 0 ≤ a % pp.skip := Int.emod_nonneg a (ne_of_gt hs)
    have hq0 : 0 ≤ a / pp.skip := Int.ediv_nonneg (le_of_lt ha) (le_of_lt hs)
    have hb : boolToInt (decide (a % pp.skip > 0)) = if a % pp.skip > 0 then 1 else 0 := by
      by_cases hz : a % pp.skip > 0 <;> simp [boolToInt, hz]
    rw [hb]
    constructor
    · split <;> omega
    · split
      · have : a / pp.skip + 1 ≤ a := by nlinarith
        omega
      · have : a / pp.skip ≤ a := by nlinarith
        omega
  have ew : wrap32 (Int.tdiv pp.width pp.skip + boolToInt (decide (Int.tmod pp.width pp.skip > 0)))
      = Int.tdiv pp.width pp.skip + boolToInt (decide (Int.tmod pp.width pp.skip > 0)) := by
    rw [dw, mw]
    exact wrap32_of_range _ (bw pp.width hw hwmax).1 (bw pp.width hw hwmax).2
  have eh : wrap32 (Int.tdiv pp.height pp.skip
        + boolToInt (decide (Int.tmod pp.height pp.skip > 0)))
      = Int.tdiv pp.height pp.skip + boolToInt (decide (Int.tmod pp.height pp.skip > 0)) := by
    rw [dh, mh]
    exact wrap32_of_range _ (bw pp.height hh hhmax).1 (bw pp.height hh hhmax).2
  have hbool : ∀ a : Int, boolToInt (decide (a % pp.skip > 0))
      = if a % pp.skip > 0 then 1 else 0 := by
    intro a
    by_cases hz : a % pp.skip > 0 <;> simp [boolToInt, hz]
  constructor
  · simp only [getSize, PreviewProps.getWidth, PreviewProps.getHeight, PreviewProps.getSkip]
    rw [ew, eh, cw, ch]
  · simp only [getSize, PreviewProps.getWidth, PreviewProps.getHeight, PreviewProps.getSkip]
    rw [ew, eh, dw, mw, dh, mh, hbool, hbool]

/-- Witness of C10: width 1000, height 667 and skip 3 give the size (334, 223). -/
theorem getSize_eq_ceil_witness :
    getSize { x := 0, y := 0, width := 1000, height := 667, skip := 3 } = (334, 223)
      ∧ (⌈((1000 : Int) : ℚ) / ((3 : Int) : ℚ)⌉, ⌈((667 : Int) : ℚ) / ((3 : Int) : ℚ)⌉)
        = ((334 : Int), (223 : Int)) := by
  have h := (getSize_eq_ceil { x := 0, y := 0, width := 1000, height := 667, skip := 3 }
    (by decide) (by decide) (by decide) (by decide) (by decide)).1
  have e : getSize { x := 0, y := 0, width := 1000, height := 667, skip := 3 } = (334, 223) := by
    decide
  exact ⟨e, h.symm.trans e⟩

/-! ### Profile resolution -/

theorem two_pow_and_ne_zero (a m : Nat) : ((2 ^ a &&& m) != 0) = m.testBit a := by
  by_cases h : m.testBit a = true
  · have hb : (2 ^ a &&& m).testBit a = true := by
      simp [Nat.testBit_and, Nat.testBit_two_pow_self, h]
    have hne : 2 ^ a &&& m ≠ 0 := by
      intro h0
      rw [h0] at hb
      simp at hb
    simp [h, hne]
  · have hz : 2 ^ a &&& m = 0 := by
      apply Nat.eq_of_testBit_eq
      intro i
      simp only [Nat.testBit_and, Nat.testBit_two_pow, Nat.zero_testBit]
      by_cases hi : a = i
      · subst hi
        simpa using h
      · simp [hi]
    simp [hz, h]

theorem flagBit_injective : Function.Injective flagBit := by
  intro a b h
  cases a <;> cases b <;> first | rfl | (simp [flagBit] at h)

theorem flagCodes_flagCode : FlagCodes flagCode := by
  refine ⟨by simp [flagCode], flagBit, flagBit_injective, ?_⟩
  intro f hf
  simp [flagCode, hf]

/-- With flag-valued enumerators the bit test of `colorSpaceConversion` holds
exactly for the five HDR/log float kinds. -/
theorem floatFormatTest_eq (env : Env) (hcodes : FlagCodes env.sfCode)
    (f : IIOSampleFormat) : floatFormatTest env f = f.isFloatKind := by
  obtain ⟨h0, bit, hinj, hbit⟩ := hcodes
  have hne : ∀ g : IIOSampleFormat, g ≠ f → (bit g = bit f) = False := by
    intro g hg
    exact eq_false (fun h => hg (hinj h))
  unfold floatFormatTest
  rw [hbit .IIOSF_LOGLUV24 (by decide), hbit .IIOSF_LOGLUV32 (by decide),
    hbit .IIOSF_FLOAT16 (by decide), hbit .IIOSF_FLOAT24 (by decide),
    hbit .IIOSF_FLOAT32 (by decide)]
  cases f
  case IIOSF_UNKNOWN => simp [h0, IIOSampleFormat.isFloatKind]
  all_goals
    rw [hbit _ (by decide), two_pow_and_ne_zero]
    simp [Nat.testBit_or, Nat.testBit_two_pow, IIOSampleFormat.isFloatKind, hne]

/-- C1: for every preference other than "(none)", `colorSpaceConversion`
resolves its source profile by the decision table. With one of the
preferences "(embedded)", "", "(camera)", "(cameraICC)" it is the embedded
profile when present; with any other name it is the store's profile of that
name when the lookup succeeds, else the embedded profile when present; when
neither is available the result is skip for the sample formats LogLuv24,
LogLuv32, Float16, Float24, Float32 and the default sRGB profile otherwise.
The enumerators of the sample format are flag values, as the bit test in the
source presupposes. -/
theorem resolveSource_decision_table (env : Env) (hcodes : FlagCodes env.sfCode)
    (cmp : ColorManagementParams) (embedded : cmsHPROFILE) (sampleFormat : IIOSampleFormat)
    (hpref : cmp.inputProfile ≠ "(none)") :
    (cmp.inputProfile ∈ embeddedPreferences →
        resolveSource env cmp embedded sampleFormat =
          match embedded with
          | some e => (false, some e)
          | none => fallbackSource env sampleFormat) ∧
    (cmp.inputProfile ∉ embeddedPreferences →
        resolveSource env cmp embedded sampleFormat =
          match env.getProfile cmp.inputProfile with
          | some p => (false, some p)
          | none =>
            match embedded with
            | some e => (false, some e)
            | none => fallbackSource env sampleFormat) := by
  have hmem : cmp.inputProfile ∈ embeddedPreferences ↔
      (cmp.inputProfile = "(embedded)" ∨ cmp.inputProfile = "" ∨ cmp.inputProfile = "(camera)"
        ∨ cmp.inputProfile = "(cameraICC)") := by
    simp [embeddedPreferences]
  constructor
  · intro h
    have h2 := hmem.mp h
    unfold resolveSource fallbackSource
    rw [if_pos h2, floatFormatTest_eq env hcodes]
    cases embedded <;> simp
  · intro h
    have h2 : ¬ (cmp.inputProfile = "(embedded)" ∨ cmp.inputProfile = ""
        ∨ cmp.inputProfile = "(camera)" ∨ cmp.inputProfile = "(cameraICC)") :=
      fun h3 => h (hmem.mpr h3)
    unfold resolveSource fallbackSource
    rw [if_neg h2, if_pos hpref, floatFormatTest_eq env hcodes]
    cases hp : env.getProfile cmp.inputProfile <;> cases embedded <;> simp

/-- Witness of C1: the unknown name "Missing" with no embedded profile on a
Float32 image resolves to skip in the sample environment. -/
theorem resolveSource_decision_table_witness :
    FlagCodes sampleEnv.sfCode ∧ ("Missing" : String) ≠ "(none)"
      ∧ ("Missing" : String) ∉ embeddedPreferences
      ∧ resolveSource sampleEnv { workingProfile := "ProPhoto", inputProfile := "Missing" } none
          .IIOSF_FLOAT32 = (true, none) := by
  have hm : ("Missing" : String) ∉ embeddedPreferences := by decide
  have h := (resolveSource_decision_table sampleEnv flagCodes_flagCode
    { workingProfile := "ProPhoto", inputProfile := "Missing" } none .IIOSF_FLOAT32
    (by decide)).2 hm
  refine ⟨flagCodes_flagCode, by decide, hm, ?_⟩
  rw [h]
  simp [sampleEnv, fallbackSource, IIOSampleFormat.isFloatKind]

/-- C2: with the input profile "(none)" `colorSpaceConversion` resolves no
source profile, makes no call at all (in particular no transform is
constructed) and returns the image as it was, for every embedded profile
handle, sample format, working profile and image. -/
theorem colorSpaceConversion_none (env : Env) (im : Raster) (workingProfile : String)
    (embedded : cmsHPROFILE) (sampleFormat : IIOSampleFormat) :
    resolveSource env { workingProfile := workingProfile, inputProfile := "(none)" } embedded
        sampleFormat = (false, none)
      ∧ colorSpaceConversion env im { workingProfile := workingProfile, inputProfile := "(none)" }
          embedded sampleFormat = (im, [])
      ∧ createCalls (colorSpaceConversion env im
          { workingProfile := workingProfile, inputProfile := "(none)" } embedded
          sampleFormat).2 = [] := by
  have h : resolveSource env { workingProfile := workingProfile, inputProfile := "(none)" }
      embedded sampleFormat = (false, none) := by
    simp [resolveSource]
  refine ⟨h, ?_, ?_⟩ <;> simp [colorSpaceConversion, h, createCalls]

/-! ### The colour-space check and the transform -/

theorem couldNotConvert_ne_notRgbMessage (a w : String) :
    CmsEvent.printf ("Could not convert from " ++ a ++ " to " ++ w ++ "\n")
      ≠ CmsEvent.printf notRgbMessage := by
  intro h
  have h1 := CmsEvent.printf.inj h
  have h2 := congrArg String.data h1
  simp [String.data_append, notRgbMessage] at h2

theorem substitutionDiagnostics_log (b : Bool) (src dst : cmsHPROFILE) (rest : List CmsEvent)
    (hrest : List.count (CmsEvent.printf notRgbMessage) rest = 0) :
    substitutionDiagnostics
      ((if b = true then [CmsEvent.printf notRgbMessage] else [])
        ++ [CmsEvent.lock, .cmsCreateTransform src dst, .unlock] ++ rest)
      = if b = true then 1 else 0 := by
  unfold substitutionDiagnostics
  rw [List.count_append, List.count_append, hrest]
  cases b <;> simp [List.count_cons]

theorem count_couldNotConvert (a w : String) :
    List.count (CmsEvent.printf notRgbMessage)
      [CmsEvent.printf ("Could not convert from " ++ a ++ " to " ++ w ++ "\n")] = 0 := by
  rw [List.count_cons_of_ne (couldNotConvert_ne_notRgbMessage a w).symm, List.count_nil]

theorem count_bufferOps (t : Nat) :
    List.count (CmsEvent.printf notRgbMessage)
      [CmsEvent.normalizeFloatTo1, .ExecCMSTransform t, .normalizeFloatTo65535,
        .cmsDeleteTransform t] = 0 := by
  simp [List.count_cons]

/-- The log of `colorSpaceConversion` once a source profile is resolved. -/
theorem colorSpaceConversion_resolved (env : Env) (im : Raster) (cmp : ColorManagementParams)
    (embedded : cmsHPROFILE) (sampleFormat : IIOSampleFormat) (h : Nat)
    (hres : resolveSource env cmp embedded sampleFormat = (false, some h)) :
    colorSpaceConversion env im cmp embedded sampleFormat =
      match env.cmsCreateTransform (checkedSource env (some h) embedded)
          (env.workingSpace cmp.workingProfile) with
      | some t =>
        (env.normalizeFloatTo65535 (env.ExecCMSTransform (env.normalizeFloatTo1 im) t),
          (if embeddedNotRgb env (some h) embedded then [CmsEvent.printf notRgbMessage] else [])
            ++ [CmsEvent.lock,
                .cmsCreateTransform (checkedSource env (some h) embedded)
                  (env.workingSpace cmp.workingProfile), .unlock]
            ++ [.normalizeFloatTo1, .ExecCMSTransform t, .normalizeFloatTo65535,
                .cmsDeleteTransform t])
      | none =>
        (im,
          (if embeddedNotRgb env (some h) embedded then [CmsEvent.printf notRgbMessage] else [])
            ++ [CmsEvent.lock,
                .cmsCreateTransform (checkedSource env (some h) embedded)
                  (env.workingSpace cmp.workingProfile), .unlock]
            ++ [.printf ("Could not convert from "
                ++ (if checkedSource env (some h) embedded = embedded then "embedded profile"
                    else cmp.inputProfile)
                ++ " to " ++ cmp.workingProfile ++ "\n")]) := by
  unfold colorSpaceConversion
  rw [hres]
  simp only [Bool.not_false, Option.isSome_some, Bool.and_self, if_true]

/-- C3: when the resolved source profile is the embedded profile and it does
not report the RGB colour space, the source handed to transform construction
is the default sRGB profile and not the embedded one, and the substitution
diagnostic is printed exactly once; when it does report RGB it is handed over
unchanged and the diagnostic is not printed. The store's sRGB profile is
taken to report the RGB colour space. -/
theorem embedded_profile_rgb_check (env : Env)
    (hsrgb : env.cmsGetColorSpace env.getsRGBProfile = cmsSigRgbData)
    (im : Raster) (cmp : ColorManagementParams) (e : Nat) (sampleFormat : IIOSampleFormat)
    (hres : resolveSource env cmp (some e) sampleFormat = (false, some e)) :
    (env.cmsGetColorSpace (some e) ≠ cmsSigRgbData →
        createCalls (colorSpaceConversion env im cmp (some e) sampleFormat).2
            = [(env.getsRGBProfile, env.workingSpace cmp.workingProfile)]
          ∧ env.getsRGBProfile ≠ some e
          ∧ substitutionDiagnostics (colorSpaceConversion env im cmp (some e) sampleFormat).2
            = 1) ∧
    (env.cmsGetColorSpace (some e) = cmsSigRgbData →
        createCalls (colorSpaceConversion env im cmp (some e) sampleFormat).2
            = [(some e, env.workingSpace cmp.workingProfile)]
          ∧ substitutionDiagnostics (colorSpaceConversion env im cmp (some e) sampleFormat).2
            = 0) := by
  have hlog := colorSpaceConversion_resolved env im cmp (some e) sampleFormat e hres
  constructor
  · intro hne
    have hchk : embeddedNotRgb env (some e) (some e) = true := by
      simp [embeddedNotRgb, hne]
    have hsrc : checkedSource env (some e) (some e) = env.getsRGBProfile := by
      simp [checkedSource, hchk]
    have hdiff : env.getsRGBProfile ≠ some e := by
      intro heq
      rw [heq] at hsrgb
      exact hne hsrgb
    rw [hlog, hsrc, hchk]
    refine ⟨?_, hdiff, ?_⟩
    · cases env.cmsCreateTransform env.getsRGBProfile (env.workingSpace cmp.workingProfile) <;>
        simp [createCalls]
    · cases env.cmsCreateTransform env.getsRGBProfile (env.workingSpace cmp.workingProfile)
      · exact substitutionDiagnostics_log true _ _ _ (count_couldNotConvert _ _)
      · exact substitutionDiagnostics_log true _ _ _ (count_bufferOps _)
  · intro heq
    have hchk : embeddedNotRgb env (some e) (some e) = false := by
      simp [embeddedNotRgb, heq]
    have hsrc : checkedSource env (some e) (some e) = some e := by
      simp [checkedSource, hchk]
    rw [hlog, hsrc, hchk]
    constructor
    · cases env.cmsCreateTransform (some e) (env.workingSpace cmp.workingProfile) <;>
        simp [createCalls]
    · cases env.cmsCreateTransform (some e) (env.workingSpace cmp.workingProfile)
      · exact substitutionDiagnostics_log false _ _ _ (count_couldNotConvert _ _)
      · exact substitutionDiagnostics_log false _ _ _ (count_bufferOps _)

/-- Witness of C3: in the sample environment the embedded profile with handle
7 reports a colour space other than RGB; with the preference "(embedded)" the
transform is built from sRGB (handle 10) and the diagnostic is printed once. -/
theorem embedded_profile_rgb_check_witness :
    sampleEnv.cmsGetColorSpace sampleEnv.getsRGBProfile = cmsSigRgbData
      ∧ resolveSource sampleEnv { workingProfile := "ProPhoto", inputProfile := "(embedded)" }
          (some 7) .IIOSF_UNSIGNED_CHAR = (false, some 7)
      ∧ sampleEnv.cmsGetColorSpace (some 7) ≠ cmsSigRgbData
      ∧ createCalls (colorSpaceConversion sampleEnv sampleImage
          { workingProfile := "ProPhoto", inputProfile := "(embedded)" } (some 7)
          .IIOSF_UNSIGNED_CHAR).2 = [(some 10, some 30)]
      ∧ substitutionDiagnostics (colorSpaceConversion sampleEnv sampleImage
          { workingProfile := "ProPhoto", inputProfile := "(embedded)" } (some 7)
          .IIOSF_UNSIGNED_CHAR).2 = 1 := by
  have h1 : sampleEnv.cmsGetColorSpace sampleEnv.getsRGBProfile = cmsSigRgbData := by
    simp [sampleEnv]
  have h2 : resolveSource sampleEnv { workingProfile := "ProPhoto", inputProfile := "(embedded)" }
      (some 7) .IIOSF_UNSIGNED_CHAR = (false, some 7) := by
    simp [resolveSource]
  have h3 : sampleEnv.cmsGetColorSpace (some 7) ≠ cmsSigRgbData := by
    simp [sampleEnv, cmsSigRgbData]
  have h := (embedded_profile_rgb_check sampleEnv h1 sampleImage
    { workingProfile := "ProPhoto", inputProfile := "(embedded)" } 7 .IIOSF_UNSIGNED_CHAR h2).1 h3
  exact ⟨h1, h2, h3, h.1, h.2.2⟩

/-- C4: the operations `colorSpaceConversion` applies to the float image are
either exactly `normalizeFloatTo1`, `ExecCMSTransform`, `normalizeFloatTo65535`
in this order, each once, when a source profile is resolved and the transform
is constructed, or none at all in every other case (skip, no source profile,
construction returning null), and then the image is returned as it was. -/
theorem colorSpaceConversion_buffer_ops (env : Env) (im : Raster) (cmp : ColorManagementParams)
    (embedded : cmsHPROFILE) (sampleFormat : IIOSampleFormat) :
    match resolveSource env cmp embedded sampleFormat with
    | (false, some h) =>
      match env.cmsCreateTransform (checkedSource env (some h) embedded)
          (env.workingSpace cmp.workingProfile) with
      | some t =>
        bufferOps (colorSpaceConversion env im cmp embedded sampleFormat).2
            = [.normalizeFloatTo1, .ExecCMSTransform t, .normalizeFloatTo65535]
          ∧ (colorSpaceConversion env im cmp embedded sampleFormat).1
            = env.normalizeFloatTo65535 (env.ExecCMSTransform (env.normalizeFloatTo1 im) t)
      | none =>
        bufferOps (colorSpaceConversion env im cmp embedded sampleFormat).2 = []
          ∧ (colorSpaceConversion env im cmp embedded sampleFormat).1 = im
    | _ =>
      (colorSpaceConversion env im cmp embedded sampleFormat).2 = []
        ∧ (colorSpaceConversion env im cmp embedded sampleFormat).1 = im := by
  rcases hres : resolveSource env cmp embedded sampleFormat with ⟨skip, inp⟩
  cases skip
  · cases inp with
    | none => simp [colorSpaceConversion, hres]
    | some h =>
      have hlog := colorSpaceConversion_resolved env im cmp embedded sampleFormat h hres
      simp only
      rw [hlog]
      cases env.cmsCreateTransform (checkedSource env (some h) embedded)
        (env.workingSpace cmp.workingProfile)
      · simp only
        refine ⟨?_, trivial⟩
        cases embeddedNotRgb env (some h) embedded <;> simp [bufferOps]
      · simp only
        refine ⟨?_, trivial⟩
        cases embeddedNotRgb env (some h) embedded <;> simp [bufferOps]
  · simp [colorSpaceConversion, hres]

/-! ### Loading -/

theorem documentedRaster_eq_allocFor (f : IIOSampleFormat) : documentedRaster f = allocFor f := by
  cases f <;> rfl

theorem stampRaster_fst (s : StdImageSource) (k : ImageKind) (f : IIOSampleFormat)
    (a : IIOSampleArrangement) :
    (stampRaster s k f a).1.type = k ∧ (stampRaster s k f a).1.sampleFormat = f
      ∧ (stampRaster s k f a).1.sampleArrangement = a := by
  unfold stampRaster
  cases s.plistener.isSome <;> simp [Raster.create, Raster.setSampleFormat,
    Raster.setSampleArrangement, Raster.setProgressListener]

theorem stampRaster_snd (s : StdImageSource) (k : ImageKind) (f : IIOSampleFormat)
    (a : IIOSampleArrangement) :
    decodeCalls (stampRaster s k f a).2 = []
      ∧ ∃ mid, (stampRaster s k f a).2 =
          [LoadEvent.newImage k, .setSampleFormat f, .setSampleArrangement a] ++ mid := by
  unfold stampRaster
  cases s.plistener.isSome <;> simp [decodeCalls]

theorem afterDecode_spec (env : Env) (s : StdImageSource) (fname : String) (decoded : Raster) :
    decodeCalls (afterDecode env s fname decoded).2 = []
      ∧ (afterDecode env s fname decoded).1.img.isSome = true := by
  unfold afterDecode
  by_cases hx : (env.framesData fname).hasExif = true <;>
    by_cases hl : s.plistener.isSome = true <;>
    by_cases hd : orientationDeg (env.framesData fname).getOrientation = 0 <;>
    simp [decodeCalls, hx, hl, hd]

/-- The shape of `load` once the class to allocate is known: the decode is
called once, on the stamped raster, after the set-up events. -/
theorem load_supported (env : Env) (s : StdImageSource) (fname : String)
    (f : IIOSampleFormat) (a : IIOSampleArrangement) (k : ImageKind)
    (hdet : getSampleFormat env fname = (f, a)) (hk : allocFor f = some k) :
    ∃ r mid rest,
      (load env s fname).2.2 =
          [LoadEvent.newImage k, .setSampleFormat f, .setSampleArrangement a] ++ mid
            ++ [LoadEvent.imgLoad r fname] ++ rest
        ∧ decodeCalls mid = [] ∧ decodeCalls rest = []
        ∧ r.type = k ∧ r.sampleFormat = f ∧ r.sampleArrangement = a
        ∧ ((env.imgLoad r fname).1 ≠ 0 →
            (load env s fname).1 = (env.imgLoad r fname).1 ∧ (load env s fname).2.1.img = none)
        ∧ ((env.imgLoad r fname).1 = 0 →
            (load env s fname).1 = 0 ∧ (load env s fname).2.1.img.isSome = true) := by
  obtain ⟨hpre, mid, hmid⟩ := stampRaster_snd { s with fileName := fname } k f a
  obtain ⟨h1, h2, h3⟩ := stampRaster_fst { s with fileName := fname } k f a
  have hmid0 : decodeCalls mid = [] := by
    rw [hmid] at hpre
    simpa [decodeCalls] using hpre
  by_cases he : (env.imgLoad (stampRaster { s with fileName := fname } k f a).1 fname).1 = 0
  · obtain ⟨ha1, ha2⟩ := afterDecode_spec env { s with fileName := fname } fname
      (env.imgLoad (stampRaster { s with fileName := fname } k f a).1 fname).2
    have hload : load env s fname =
        (0, (afterDecode env { s with fileName := fname } fname
            (env.imgLoad (stampRaster { s with fileName := fname } k f a).1 fname).2).1,
          (stampRaster { s with fileName := fname } k f a).2
            ++ [LoadEvent.imgLoad (stampRaster { s with fileName := fname } k f a).1 fname]
            ++ (afterDecode env { s with fileName := fname } fname
              (env.imgLoad (stampRaster { s with fileName := fname } k f a).1 fname).2).2) := by
      simp only [load, hdet, hk]
      split_ifs with h
      · exact absurd he h
      · rfl
    refine ⟨(stampRaster { s with fileName := fname } k f a).1, mid,
      (afterDecode env { s with fileName := fname } fname
        (env.imgLoad (stampRaster { s with fileName := fname } k f a).1 fname).2).2,
      ?_, hmid0, ha1, h1, h2, h3, fun hne => absurd he hne, fun _ => ?_⟩
    · rw [hload, hmid]
    · rw [hload]
      exact ⟨rfl, ha2⟩
  · have hload : load env s fname =
        ((env.imgLoad (stampRaster { s with fileName := fname } k f a).1 fname).1,
          { s with fileName := fname, img := none },
          (stampRaster { s with fileName := fname } k f a).2
            ++ [LoadEvent.imgLoad (stampRaster { s with fileName := fname } k f a).1 fname]
            ++ [LoadEvent.deleteImg]) := by
      simp only [load, hdet, hk]
      split_ifs with h
      · rfl
      · exact absurd he h
    refine ⟨(stampRaster { s with fileName := fname } k f a).1, mid, [LoadEvent.deleteImg],
      ?_, hmid0, by simp [decodeCalls], h1, h2, h3, fun _ => ?_, fun h0 => absurd h0 he⟩
    · rw [hload, hmid]
    · rw [hload]
      exact ⟨rfl, rfl⟩

theorem load_unsupported (env : Env) (s : StdImageSource) (fname : String)
    (f : IIOSampleFormat) (a : IIOSampleArrangement)
    (hdet : getSampleFormat env fname = (f, a)) (hk : allocFor f = none) :
    load env s fname = (env.IMIO_FILETYPENOTSUPPORTED, { s with fileName := fname }, []) := by
  simp only [load, hdet, hk]

theorem decodeCalls_append (xs ys : List LoadEvent) :
    decodeCalls (xs ++ ys) = decodeCalls xs ++ decodeCalls ys := by
  simp [decodeCalls, List.filterMap_append]

/-- C5: `load` selects the raster class by the documented mapping of the
detected sample format. For unsigned-8 (`Image8`), unsigned-16 (`Image16`)
and the five float/log kinds (`Imagefloat`) the raster is allocated and
stamped with the detected format and arrangement, and only then decoded: the
single decode call is made on a raster that carries both stamps. For every
other detected format `load` returns the unsupported-file-type error and no
decode is invoked. -/
theorem load_selects_raster (env : Env) (s : StdImageSource) (fname : String)
    (f : IIOSampleFormat) (a : IIOSampleArrangement)
    (hdet : getSampleFormat env fname = (f, a)) :
    match documentedRaster f with
    | some k =>
      ∃ r mid rest,
        (load env s fname).2.2 =
            [LoadEvent.newImage k, .setSampleFormat f, .setSampleArrangement a] ++ mid
              ++ [LoadEvent.imgLoad r fname] ++ rest
          ∧ decodeCalls mid = [] ∧ decodeCalls rest = []
          ∧ r.type = k ∧ r.sampleFormat = f ∧ r.sampleArrangement = a
    | none =>
      (load env s fname).1 = env.IMIO_FILETYPENOTSUPPORTED
        ∧ decodeCalls (load env s fname).2.2 = [] := by
  rw [documentedRaster_eq_allocFor]
  cases hk : allocFor f with
  | none =>
    simp only
    rw [load_unsupported env s fname f a hdet hk]
    exact ⟨rfl, rfl⟩
  | some k =>
    simp only
    obtain ⟨r, mid, rest, h1, h2, h3, h4, h5, h6, _, _⟩ :=
      load_supported env s fname f a k hdet hk
    exact ⟨r, mid, rest, h1, h2, h3, h4, h5, h6⟩

/-- Witness of C5: a TIFF file probed as Float32 is decoded into an
`Imagefloat` stamped Float32 and chunky. -/
theorem load_selects_raster_witness :
    getSampleFormat sampleEnv "a.tif" = (.IIOSF_FLOAT32, .IIOSA_CHUNKY)
      ∧ ∃ r mid rest,
        (load sampleEnv (StdImageSource.ctor freshBase) "a.tif").2.2 =
            [LoadEvent.newImage .sImagefloat, .setSampleFormat .IIOSF_FLOAT32,
              .setSampleArrangement .IIOSA_CHUNKY] ++ mid
              ++ [LoadEvent.imgLoad r "a.tif"] ++ rest
          ∧ decodeCalls mid = [] ∧ decodeCalls rest = []
          ∧ r.type = .sImagefloat ∧ r.sampleFormat = .IIOSF_FLOAT32
          ∧ r.sampleArrangement = .IIOSA_CHUNKY := by
  have hdet : getSampleFormat sampleEnv "a.tif" = (.IIOSF_FLOAT32, .IIOSA_CHUNKY) := by
    simp [getSampleFormat, sampleEnv]
  exact ⟨hdet, load_selects_raster sampleEnv (StdImageSource.ctor freshBase) "a.tif"
    .IIOSF_FLOAT32 .IIOSA_CHUNKY hdet⟩

/-- C6 as stated does not hold from every state: after a successful load of
"a.jpg", loading a file of unsupported type returns the unsupported-file-type
error (nonzero) and the image source still holds the earlier raster. -/
theorem reload_unsupported_keeps_raster :
    (load sampleEnv (StdImageSource.ctor freshBase) "a.jpg").1 = 0
      ∧ (load sampleEnv (StdImageSource.ctor freshBase) "a.jpg").2.1.img.isSome = true
      ∧ allocFor (getSampleFormat sampleEnv "notes.txt").1 = none
      ∧ (load sampleEnv (load sampleEnv (StdImageSource.ctor freshBase) "a.jpg").2.1
          "notes.txt").1 = 6
      ∧ (load sampleEnv (load sampleEnv (StdImageSource.ctor freshBase) "a.jpg").2.1
          "notes.txt").2.1.img
        = (load sampleEnv (StdImageSource.ctor freshBase) "a.jpg").2.1.img
      ∧ (load sampleEnv (load sampleEnv (StdImageSource.ctor freshBase) "a.jpg").2.1
          "notes.txt").2.1.img ≠ none := by
  have hjpg : getSampleFormat sampleEnv "a.jpg" = (.IIOSF_UNSIGNED_CHAR, .IIOSA_CHUNKY) := by
    simp [getSampleFormat, sampleEnv]
  have htxt : getSampleFormat sampleEnv "notes.txt" = (.IIOSF_UNKNOWN, .IIOSA_UNKNOWN) := by
    simp [getSampleFormat, sampleEnv]
  obtain ⟨r, mid, rest, -, -, -, -, -, -, -, hok⟩ :=
    load_supported sampleEnv (StdImageSource.ctor freshBase) "a.jpg" _ _ .sImage8 hjpg rfl
  have hdec : (sampleEnv.imgLoad r "a.jpg").1 = 0 := by simp [sampleEnv]
  have h2 := load_unsupported sampleEnv
    (load sampleEnv (StdImageSource.ctor freshBase) "a.jpg").2.1 "notes.txt" _ _ htxt rfl
  have himg : (load sampleEnv (load sampleEnv (StdImageSource.ctor freshBase) "a.jpg").2.1
      "notes.txt").2.1.img = (load sampleEnv (StdImageSource.ctor freshBase) "a.jpg").2.1.img := by
    rw [h2]
  refine ⟨(hok hdec).1, (hok hdec).2, by rw [htxt]; rfl, by rw [h2]; rfl, himg, ?_⟩
  rw [himg]
  intro hnone
  have := (hok hdec).2
  rw [hnone] at this
  simp at this

theorem stampRaster_counts (s : StdImageSource) (k : ImageKind) (f : IIOSampleFormat)
    (a : IIOSampleArrangement) :
    allocations (stampRaster s k f a).2 = 1 ∧ releases (stampRaster s k f a).2 = 0 := by
  unfold stampRaster
  cases s.plistener.isSome <;> simp [allocations, releases, List.count_cons]

/-- The result of `load` when the decode of the stamped raster fails. -/
theorem load_decode_failed (env : Env) (s : StdImageSource) (fname : String)
    (f : IIOSampleFormat) (a : IIOSampleArrangement) (k : ImageKind)
    (hdet : getSampleFormat env fname = (f, a)) (hk : allocFor f = some k)
    (herr : (env.imgLoad (stampRaster { s with fileName := fname } k f a).1 fname).1 ≠ 0) :
    load env s fname =
      ((env.imgLoad (stampRaster { s with fileName := fname } k f a).1 fname).1,
        { s with fileName := fname, img := none },
        (stampRaster { s with fileName := fname } k f a).2
          ++ [LoadEvent.imgLoad (stampRaster { s with fileName := fname } k f a).1 fname]
          ++ [LoadEvent.deleteImg]) := by
  simp only [load, hdet, hk]
  split_ifs with h
  · rfl
  · exact absurd herr h

/-- The result of `load` when the decode of the stamped raster succeeds. -/
theorem load_decode_ok (env : Env) (s : StdImageSource) (fname : String)
    (f : IIOSampleFormat) (a : IIOSampleArrangement) (k : ImageKind)
    (hdet : getSampleFormat env fname = (f, a)) (hk : allocFor f = some k)
    (hok : (env.imgLoad (stampRaster { s with fileName := fname } k f a).1 fname).1 = 0) :
    load env s fname =
      (0, (afterDecode env { s with fileName := fname } fname
          (env.imgLoad (stampRaster { s with fileName := fname } k f a).1 fname).2).1,
        (stampRaster { s with fileName := fname } k f a).2
          ++ [LoadEvent.imgLoad (stampRaster { s with fileName := fname } k f a).1 fname]
          ++ (afterDecode env { s with fileName := fname } fname
            (env.imgLoad (stampRaster { s with fileName := fname } k f a).1 fname).2).2) := by
  simp only [load, hdet, hk]
  split_ifs with h
  · exact absurd hok h
  · rfl

theorem allocations_append (xs ys : List LoadEvent) :
    allocations (xs ++ ys) = allocations xs + allocations ys := by
  simp [allocations, List.filter_append]

theorem releases_append (xs ys : List LoadEvent) :
    releases (xs ++ ys) = releases xs + releases ys := by
  simp [releases, List.count_append]

/-- C6, amended: for every image source that holds no raster when `load` is
called (as after construction) and every file name, a failing `load` returns
its error and leaves a clean not-loaded object with no raster allocated. When
the detected format is unsupported, `load` returns the unsupported-file-type
error, allocates nothing and invokes no decode. When the decode returns a
nonzero code, `load` returns that code unchanged, and the one raster the call
allocated is deleted directly after the failed decode. In both cases the
image source holds no raster afterwards and, apart from the recorded file
name, is as it was before the call. -/
theorem load_failure_state (env : Env) (s : StdImageSource) (fname : String)
    (f : IIOSampleFormat) (a : IIOSampleArrangement)
    (hdet : getSampleFormat env fname = (f, a)) (hfresh : s.img = none) :
    (documentedRaster f = none →
        (load env s fname).1 = env.IMIO_FILETYPENOTSUPPORTED
          ∧ (load env s fname).2.2 = []
          ∧ (load env s fname).2.1 = { s with fileName := fname }
          ∧ (load env s fname).2.1.img = none) ∧
    (documentedRaster f ≠ none →
        ∃ r pre rest,
          (load env s fname).2.2 = pre ++ [LoadEvent.imgLoad r fname] ++ rest
            ∧ decodeCalls pre = [] ∧ allocations pre = 1 ∧ releases pre = 0
            ∧ ((env.imgLoad r fname).1 ≠ 0 →
                (load env s fname).1 = (env.imgLoad r fname).1
                  ∧ rest = [LoadEvent.deleteImg]
                  ∧ allocations (load env s fname).2.2 = 1
                  ∧ releases (load env s fname).2.2 = 1
                  ∧ (load env s fname).2.1 = { s with fileName := fname }
                  ∧ (load env s fname).2.1.img = none)) := by
  rw [documentedRaster_eq_allocFor]
  constructor
  · intro hk
    rw [load_unsupported env s fname f a hdet hk]
    exact ⟨rfl, rfl, rfl, hfresh⟩
  · intro hk
    cases hk2 : allocFor f with
    | none => exact absurd hk2 hk
    | some k =>
      obtain ⟨hpre, -⟩ := stampRaster_snd { s with fileName := fname } k f a
      obtain ⟨hal, hrel⟩ := stampRaster_counts { s with fileName := fname } k f a
      by_cases he : (env.imgLoad (stampRaster { s with fileName := fname } k f a).1 fname).1 = 0
      · have hload := load_decode_ok env s fname f a k hdet hk2 he
        refine ⟨(stampRaster { s with fileName := fname } k f a).1,
          (stampRaster { s with fileName := fname } k f a).2,
          (afterDecode env { s with fileName := fname } fname
            (env.imgLoad (stampRaster { s with fileName := fname } k f a).1 fname).2).2, ?_,
          hpre, hal, hrel, fun hne => absurd he hne⟩
        rw [hload]
      · have hload := load_decode_failed env s fname f a k hdet hk2 he
        refine ⟨(stampRaster { s with fileName := fname } k f a).1,
          (stampRaster { s with fileName := fname } k f a).2, [LoadEvent.deleteImg], ?_, hpre,
          hal, hrel, fun _ => ?_⟩
        · rw [hload]
        · rw [hload]
          have hst : ({ s with fileName := fname, img := none } : StdImageSource)
              = { s with fileName := fname } := by
            rw [← hfresh]
          refine ⟨rfl, rfl, ?_, ?_, hst, rfl⟩
          · simp only [allocations_append, hal]
            simp [allocations]
          · simp only [releases_append, hrel]
            simp [releases, List.count_cons]

/-- Witness of C6: on a freshly constructed image source the decode of
"broken.jpg" fails with code 4; `load` returns 4, the raster it allocated is
deleted after the decode, and the image source holds no raster. -/
theorem load_failure_state_witness :
    getSampleFormat sampleEnv "broken.jpg" = (.IIOSF_UNSIGNED_CHAR, .IIOSA_CHUNKY)
      ∧ (StdImageSource.ctor freshBase).img = none
      ∧ documentedRaster .IIOSF_UNSIGNED_CHAR ≠ none
      ∧ ∃ r pre rest,
          (load sampleEnv (StdImageSource.ctor freshBase) "broken.jpg").2.2
              = pre ++ [LoadEvent.imgLoad r "broken.jpg"] ++ rest
            ∧ decodeCalls pre = [] ∧ allocations pre = 1 ∧ releases pre = 0
            ∧ (sampleEnv.imgLoad r "broken.jpg").1 = 4
            ∧ (load sampleEnv (StdImageSource.ctor freshBase) "broken.jpg").1 = 4
            ∧ rest = [LoadEvent.deleteImg]
            ∧ (load sampleEnv (StdImageSource.ctor freshBase) "broken.jpg").2.1.img = none := by
  have hdet : getSampleFormat sampleEnv "broken.jpg" = (.IIOSF_UNSIGNED_CHAR, .IIOSA_CHUNKY) := by
    simp [getSampleFormat, sampleEnv]
  have hsup : documentedRaster .IIOSF_UNSIGNED_CHAR ≠ none := by simp [documentedRaster]
  obtain ⟨r, pre, rest, hlog, hdec, hal, hrel, hfail⟩ :=
    (load_failure_state sampleEnv (StdImageSource.ctor freshBase) "broken.jpg" _ _ hdet rfl).2 hsup
  have hcode : (sampleEnv.imgLoad r "broken.jpg").1 = 4 := by simp [sampleEnv]
  have hne : (sampleEnv.imgLoad r "broken.jpg").1 ≠ 0 := by rw [hcode]; decide
  obtain ⟨hret, hrest, -, -, -, himg⟩ := hfail hne
  exact ⟨hdet, rfl, hsup, r, pre, rest, hlog, hdec, hal, hrel, hcode, hcode ▸ hret, hrest, himg⟩

/-! ### White balance -/

theorem cne_negOne (x : Dbl) : Dbl.cne x (Dbl.fin (-1)) = decide (x ≠ Dbl.fin (-1)) := by
  unfold Dbl.cne
  cases x <;> simp

/-- C7 as stated does not hold for every triple: the mark for "not computed"
is the red multiplier -1. The raster loaded from "neg.tif" yields the triple
(-1, 2, 3); the first call returns it, the raster is then emptied by
`flushRGB`, and the second call invokes the raster routine again and returns
(NaN, NaN, NaN). -/
theorem getAutoWBMultipliers_recomputes :
    negSource.img.isSome = true
      ∧ (getAutoWBMultipliers sampleEnv negSource).map (fun r => r.1)
        = some (Dbl.fin (-1), Dbl.fin 2, Dbl.fin 3)
      ∧ (((getAutoWBMultipliers sampleEnv negSource).bind fun r => flushRGB sampleEnv r.2.1).bind
          fun s => getAutoWBMultipliers sampleEnv s).map (fun r => (r.1, r.2.2.length))
        = some ((Dbl.nan, Dbl.nan, Dbl.nan), 1) := by
  refine ⟨?_, ?_, ?_⟩ <;>
    simp [negSource, load, sampleEnv, getSampleFormat, allocFor, stampRaster, afterDecode,
      getAutoWBMultipliers, flushRGB, StdImageSource.ctor, freshBase, Dbl.cne, Raster.create,
      Raster.setSampleFormat, Raster.setSampleArrangement, Raster.getEmbeddedProfile]

/-- C7, amended: on a loaded image source, provided the red multiplier that is
cached or computed by the first call is not -1 (the mark for "not computed"),
the first call of `getAutoWBMultipliers` returns a triple after at most one
invocation of the raster routine (exactly the routine's triple, stored in the
cache, when nothing was cached before), and a second call returns the same
triple without invoking the routine and without changing the state, whatever
raster the image source holds by then. -/
theorem getAutoWBMultipliers_cached (env : Env) (s : StdImageSource) (img img2 : Raster)
    (himg : s.img = some img)
    (hmark : s.redAWBMul ≠ Dbl.fin (-1) ∨ (env.imgGetAutoWBMultipliers img).1 ≠ Dbl.fin (-1)) :
    ∃ t s1 calls,
      getAutoWBMultipliers env s = some (t, s1, calls)
        ∧ calls.length ≤ 1
        ∧ (s.redAWBMul = Dbl.fin (-1) →
            t = env.imgGetAutoWBMultipliers img ∧ calls = [img]
              ∧ (s1.redAWBMul, s1.greenAWBMul, s1.blueAWBMul) = t)
        ∧ getAutoWBMultipliers env { s1 with img := some img2 }
          = some (t, { s1 with img := some img2 }, []) := by
  by_cases hc : s.redAWBMul = Dbl.fin (-1)
  · have hr : (env.imgGetAutoWBMultipliers img).1 ≠ Dbl.fin (-1) := by
      rcases hmark with h | h
      · exact absurd hc h
      · exact h
    refine ⟨env.imgGetAutoWBMultipliers img,
      { s with redAWBMul := (env.imgGetAutoWBMultipliers img).1,
               greenAWBMul := (env.imgGetAutoWBMultipliers img).2.1,
               blueAWBMul := (env.imgGetAutoWBMultipliers img).2.2 }, [img], ?_, ?_, ?_, ?_⟩
    · simp [getAutoWBMultipliers, cne_negOne, hc, himg]
    · simp
    · intro _
      exact ⟨rfl, rfl, rfl⟩
    · simp [getAutoWBMultipliers, cne_negOne, hr]
  · refine ⟨(s.redAWBMul, s.greenAWBMul, s.blueAWBMul), s, [], ?_, ?_, ?_, ?_⟩
    · simp [getAutoWBMultipliers, cne_negOne, hc]
    · simp
    · intro h
      exact absurd h hc
    · simp [getAutoWBMultipliers, cne_negOne, hc]

/-- Witness of C7: the sample image yields the triple (65535, 0, 13107); after
the first call the raster is replaced by an empty one and the second call
still returns (65535, 0, 13107). -/
theorem getAutoWBMultipliers_cached_witness :
    sampleSource.img = some sampleImage
      ∧ (sampleEnv.imgGetAutoWBMultipliers sampleImage).1 ≠ Dbl.fin (-1)
      ∧ ∃ t s1 calls,
        getAutoWBMultipliers sampleEnv sampleSource = some (t, s1, calls)
          ∧ calls.length ≤ 1
          ∧ (sampleSource.redAWBMul = Dbl.fin (-1) →
              t = sampleEnv.imgGetAutoWBMultipliers sampleImage ∧ calls = [sampleImage]
                ∧ (s1.redAWBMul, s1.greenAWBMul, s1.blueAWBMul) = t)
          ∧ getAutoWBMultipliers sampleEnv
              { s1 with img := some (Raster.create .sImagefloat) }
            = some (t, { s1 with img := some (Raster.create .sImagefloat) }, []) := by
  have h1 : sampleSource.img = some sampleImage := rfl
  have h2 : (sampleEnv.imgGetAutoWBMultipliers sampleImage).1 ≠ Dbl.fin (-1) := by
    simp [sampleEnv, sampleImage]
    norm_num
  exact ⟨h1, h2, getAutoWBMultipliers_cached sampleEnv sampleSource sampleImage
    (Raster.create .sImagefloat) h1 (Or.inr h2)⟩

theorem getSpotWB_eq (env : Env) (s : StdImageSource) (img : Raster)
    (red green blue : List Coord2D) (tran : Int) (equal : Dbl) (himg : s.img = some img) :
    getSpotWB env s red green blue tran equal =
      some (ColorTemp.ofMultipliers
          (Dbl.mul (Dbl.div (env.getSpotWBData img red green blue tran).reds
            (Dbl.ofInt (env.getSpotWBData img red green blue tran).rn)) (env.getMultipliers s.wb).1)
          (Dbl.mul (Dbl.div (env.getSpotWBData img red green blue tran).greens
            (Dbl.ofInt (env.getSpotWBData img red green blue tran).gn))
            (env.getMultipliers s.wb).2.1)
          (Dbl.mul (Dbl.div (env.getSpotWBData img red green blue tran).blues
            (Dbl.ofInt (env.getSpotWBData img red green blue tran).bn))
            (env.getMultipliers s.wb).2.2)
          equal,
        s,
        if env.verbose then
          [SpotEvent.printfAVG
            (Dbl.div (env.getSpotWBData img red green blue tran).reds
              (Dbl.ofInt (env.getSpotWBData img red green blue tran).rn))
            (Dbl.div (env.getSpotWBData img red green blue tran).greens
              (Dbl.ofInt (env.getSpotWBData img red green blue tran).gn))
            (Dbl.div (env.getSpotWBData img red green blue tran).blues
              (Dbl.ofInt (env.getSpotWBData img red green blue tran).bn))]
        else []) := by
  simp only [getSpotWB, himg]

theorem roundHalfEven_natCast (k : ℕ) : Dbl.roundHalfEven (k : ℚ) = k := by
  have hf : ⌊(k : ℚ)⌋ = (k : ℤ) := Int.floor_natCast k
  unfold Dbl.roundHalfEven
  rw [hf]
  have h0 : ((k : ℚ) - ((k : ℤ) : ℚ)) = 0 := by simp
  rw [h0]
  norm_num

theorem log_two_eq (q : ℚ) (e : ℤ) (hq : 0 < q) (he1 : (2 : ℚ) ^ e ≤ q)
    (he2 : q < (2 : ℚ) ^ (e + 1)) : Int.log 2 q = e := by
  have h1 : e ≤ Int.log 2 q := by
    rw [← Int.zpow_le_iff_le_log (by norm_num) hq]
    exact_mod_cast he1
  have h2 : Int.log 2 q < e + 1 := by
    rw [← Int.lt_zpow_iff_log_lt (by norm_num) hq]
    exact_mod_cast he2
  omega

/-- A positive value below `2 ^ 1024` that is a multiple of its own unit in
the last place is a binary64 value: rounding returns it unchanged. -/
theorem round_of_ulp_multiple (q : ℚ) (e : ℤ) (k : ℕ) (hq : 0 < q) (he1 : (2 : ℚ) ^ e ≤ q)
    (he2 : q < (2 : ℚ) ^ (e + 1)) (hk : q = (k : ℚ) * 2 ^ (max e (-1022) - 52))
    (hfin : q < (2 : ℚ) ^ (1024 : ℤ)) : Dbl.round q = Dbl.fin q := by
  have habs : |q| = q := abs_of_pos hq
  have hu : Dbl.ulpExp q = max e (-1022) - 52 := by
    unfold Dbl.ulpExp
    rw [log_two_eq q e hq he1 he2]
  have hpow : (2 : ℚ) ^ (max e (-1022) - 52) ≠ 0 := zpow_ne_zero _ (by norm_num)
  have hdiv : q / 2 ^ (max e (-1022) - 52) = (k : ℚ) := by
    rw [div_eq_iff hpow]
    exact hk
  have hr : ((Dbl.roundHalfEven (q / 2 ^ (max e (-1022) - 52)) : ℤ) : ℚ)
      * 2 ^ (max e (-1022) - 52) = q := by
    rw [hdiv, roundHalfEven_natCast, hk]
    simp
  unfold Dbl.round
  rw [habs, hu, hr, if_neg (ne_of_gt hq), if_neg (not_le.mpr hfin), if_pos hq]

theorem round_hundred : Dbl.round 100 = Dbl.fin 100 := by
  refine round_of_ulp_multiple 100 6 (100 * 2 ^ 46) (by norm_num) (by norm_num) (by norm_num)
    ?_ (by norm_num)
  norm_num
theorem div_ofInt_finite (a : ℚ) (n : Int) (hn : n ≠ 0) :
    Dbl.div (Dbl.fin a) (Dbl.ofInt n) = Dbl.round (a / n) := by
  have hq : (n : ℚ) ≠ 0 := by exact_mod_cast hn
  simp [Dbl.div, Dbl.ofInt, hq]

theorem div_zero_mul_not_finite (x m : Dbl) :
    (Dbl.mul (Dbl.div x (Dbl.ofInt 0)) m).isFinite = false := by
  cases x with
  | fin a =>
    by_cases ha : a = 0 <;> by_cases hp : 0 < a <;> cases m with
    | fin b =>
      by_cases hb : b = 0 <;> by_cases hq : 0 < b <;> by_cases hr : b < 0 <;>
        simp [Dbl.div, Dbl.ofInt, Dbl.mul, Dbl.inf, Dbl.isFinite, ha, hp, hb, hq, hr]
    | _ => simp [Dbl.div, Dbl.ofInt, Dbl.mul, Dbl.inf, Dbl.isFinite, ha, hp]
  | _ =>
    cases m with
    | fin b =>
      by_cases hb : b = 0 <;> by_cases hq : 0 < b <;> by_cases hr : b < 0 <;>
        simp [Dbl.div, Dbl.ofInt, Dbl.mul, Dbl.inf, Dbl.isFinite, hb, hq, hr]
    | _ => simp [Dbl.div, Dbl.ofInt, Dbl.mul, Dbl.inf, Dbl.isFinite]

/-- C9 as stated does not hold: with an empty red region list (count 0) the
call does not fail; it returns a `ColorTemp` whose red argument is the
infinite quotient 200 / 0, and the image source is unchanged. -/
theorem spotWB_empty_region_yields_infinity :
    (sampleEnv.getSpotWBData sampleImage [] threePoints fourPoints 0).rn = 0
      ∧ getSpotWB sampleEnv sampleSource [] threePoints fourPoints 0 (Dbl.fin 1)
        = some (ColorTemp.ofMultipliers Dbl.posInf (Dbl.fin 100) (Dbl.fin 100) (Dbl.fin 1),
            sampleSource, []) := by
  refine ⟨rfl, ?_⟩
  have hd : sampleEnv.getSpotWBData sampleImage [] threePoints fourPoints 0
      = { reds := Dbl.fin 200, greens := Dbl.fin 300, blues := Dbl.fin 400,
          rn := 0, gn := 3, bn := 4 } := rfl
  have hm : sampleEnv.getMultipliers sampleSource.wb = (Dbl.fin 1, Dbl.fin 1, Dbl.fin 1) := rfl
  have hv : sampleEnv.verbose = false := rfl
  have q2 : ((300 : ℚ) / ((3 : Int) : ℚ)) = 100 := by norm_num
  have q3 : ((400 : ℚ) / ((4 : Int) : ℚ)) = 100 := by norm_num
  have hmul : Dbl.mul (Dbl.fin 100) (Dbl.fin 1) = Dbl.fin 100 := by
    simp [Dbl.mul, round_hundred]
  have hinf : Dbl.mul (Dbl.div (Dbl.fin 200) (Dbl.ofInt 0)) (Dbl.fin 1) = Dbl.posInf := by
    simp [Dbl.div, Dbl.mul, Dbl.ofInt, Dbl.inf]
  rw [getSpotWB_eq sampleEnv sampleSource sampleImage [] threePoints fourPoints 0 (Dbl.fin 1) rfl,
    hd, hm, hv]
  simp only [hinf, div_ofInt_finite (300 : ℚ) 3 (by decide),
    div_ofInt_finite (400 : ℚ) 4 (by decide), q2, q3, round_hundred, hmul]
  rfl

/-- C9, amended: `getSpotWB` has no failure path. On a loaded image source a
call in which the sample count of some channel is zero returns a `ColorTemp`
all the same, built from the IEEE quotients: the argument of every channel
whose count is zero is an infinity or NaN. The image source is left as it
was. -/
theorem getSpotWB_zero_count (env : Env) (s : StdImageSource) (img : Raster)
    (red green blue : List Coord2D) (tran : Int) (equal : Dbl) (himg : s.img = some img)
    (hzero : (env.getSpotWBData img red green blue tran).rn = 0
      ∨ (env.getSpotWBData img red green blue tran).gn = 0
      ∨ (env.getSpotWBData img red green blue tran).bn = 0) :
    ∃ mr mg mb out,
      getSpotWB env s red green blue tran equal
          = some (ColorTemp.ofMultipliers mr mg mb equal, s, out)
        ∧ ((env.getSpotWBData img red green blue tran).rn = 0 → mr.isFinite = false)
        ∧ ((env.getSpotWBData img red green blue tran).gn = 0 → mg.isFinite = false)
        ∧ ((env.getSpotWBData img red green blue tran).bn = 0 → mb.isFinite = false)
        ∧ (mr.isFinite = false ∨ mg.isFinite = false ∨ mb.isFinite = false) := by
  have h := getSpotWB_eq env s img red green blue tran equal himg
  have hr : (env.getSpotWBData img red green blue tran).rn = 0 →
      (Dbl.mul (Dbl.div (env.getSpotWBData img red green blue tran).reds
        (Dbl.ofInt (env.getSpotWBData img red green blue tran).rn))
        (env.getMultipliers s.wb).1).isFinite = false := by
    intro h0
    rw [h0]
    exact div_zero_mul_not_finite _ _
  have hg : (env.getSpotWBData img red green blue tran).gn = 0 →
      (Dbl.mul (Dbl.div (env.getSpotWBData img red green blue tran).greens
        (Dbl.ofInt (env.getSpotWBData img red green blue tran).gn))
        (env.getMultipliers s.wb).2.1).isFinite = false := by
    intro h0
    rw [h0]
    exact div_zero_mul_not_finite _ _
  have hb : (env.getSpotWBData img red green blue tran).bn = 0 →
      (Dbl.mul (Dbl.div (env.getSpotWBData img red green blue tran).blues
        (Dbl.ofInt (env.getSpotWBData img red green blue tran).bn))
        (env.getMultipliers s.wb).2.2).isFinite = false := by
    intro h0
    rw [h0]
    exact div_zero_mul_not_finite _ _
  refine ⟨_, _, _, _, h, hr, hg, hb, ?_⟩
  rcases hzero with h0 | h0 | h0
  · exact Or.inl (hr h0)
  · exact Or.inr (Or.inl (hg h0))
  · exact Or.inr (Or.inr (hb h0))

/-- Witness of C9: with an empty blue region list the call still returns a
`ColorTemp`, and its blue argument is not finite. -/
theorem getSpotWB_zero_count_witness :
    sampleSource.img = some sampleImage
      ∧ (sampleEnv.getSpotWBData sampleImage twoPoints threePoints [] 0).bn = 0
      ∧ ∃ mr mg mb out,
        getSpotWB sampleEnv sampleSource twoPoints threePoints [] 0 (Dbl.fin 1)
            = some (ColorTemp.ofMultipliers mr mg mb (Dbl.fin 1), sampleSource, out)
          ∧ mb.isFinite = false := by
  obtain ⟨mr, mg, mb, out, h, -, -, hb, -⟩ := getSpotWB_zero_count sampleEnv sampleSource
    sampleImage twoPoints threePoints [] 0 (Dbl.fin 1) rfl (Or.inr (Or.inr rfl))
  exact ⟨rfl, rfl, mr, mg, mb, out, h, hb rfl⟩

end RawTherapee
